import Mathlib

/-!
Shallow embedding of `src/ctxkit/main.py` (the ctxkit prompt-assembly tool).

The pure string/path helpers of the Python standard library used by the code
(`os.path.join`, `os.path.normpath`, `os.path.split`, `os.path.splitext`,
`os.path.isabs`, `str.strip`, `str.lstrip`, `re` patterns) are embedded as
executable Lean functions on `String`/`List Char` (POSIX path rules; the
`\\w` and `\\s` classes and `str.strip()` carry Python's Unicode `str`
semantics, materialized from the Unicode 14.0.0 database of CPython 3.11).  Filesystem and network I/O, `json.loads` and
`schema_markdown.validate_type` are external collaborators and are modelled by
an explicit environment `Env` of oracles.  Python's unbounded recursion
(nested `config` items, nested directories) is modelled with a fuel parameter
bounding the nesting depth; fuel exhaustion is a distinguished outcome that no
theorem identifies with programme behaviour.
-/

set_option maxRecDepth 16384

namespace CtxKit

/-! ### Character classes of Python's `re` patterns over `str` -/

/-- `[a-z]` -/
def isLowerAZ (c : Char) : Bool :=
  97 ≤ c.toNat && c.toNat ≤ 122

/-- `[_a-zA-Z]`, the first character of a variable identifier (`_` is 95). -/
def isIdentStart (c : Char) : Bool :=
  (97 ≤ c.toNat && c.toNat ≤ 122) || (65 ≤ c.toNat && c.toNat ≤ 90) || c.toNat == 95

/-- The set of Unicode word characters of Python's `\\w` on `str`
(`SRE_UNI_IS_WORD`): the underscore together with every character for which
`str.isalnum()` holds, materialized as the closed code-point ranges of the
Unicode 14.0.0 character database used by CPython 3.11. -/
def pyWordRanges : List (Nat × Nat) :=
  [(48, 57), (65, 90), (95, 95), (97, 122), (170, 170), (178, 179), (181, 181), (185, 186), 
   (188, 190), (192, 214), (216, 246), (248, 705), (710, 721), (736, 740), (748, 748), 
   (750, 750), (880, 884), (886, 887), (890, 893), (895, 895), (902, 902), (904, 906), 
   (908, 908), (910, 929), (931, 1013), (1015, 1153), (1162, 1327), (1329, 1366), (1369, 1369), 
   (1376, 1416), (1488, 1514), (1519, 1522), (1568, 1610), (1632, 1641), (1646, 1647), 
   (1649, 1747), (1749, 1749), (1765, 1766), (1774, 1788), (1791, 1791), (1808, 1808), 
   (1810, 1839), (1869, 1957), (1969, 1969), (1984, 2026), (2036, 2037), (2042, 2042), 
   (2048, 2069), (2074, 2074), (2084, 2084), (2088, 2088), (2112, 2136), (2144, 2154), 
   (2160, 2183), (2185, 2190), (2208, 2249), (2308, 2361), (2365, 2365), (2384, 2384), 
   (2392, 2401), (2406, 2415), (2417, 2432), (2437, 2444), (2447, 2448), (2451, 2472), 
   (2474, 2480), (2482, 2482), (2486, 2489), (2493, 2493), (2510, 2510), (2524, 2525), 
   (2527, 2529), (2534, 2545), (2548, 2553), (2556, 2556), (2565, 2570), (2575, 2576), 
   (2579, 2600), (2602, 2608), (2610, 2611), (2613, 2614), (2616, 2617), (2649, 2652), 
   (2654, 2654), (2662, 2671), (2674, 2676), (2693, 2701), (2703, 2705), (2707, 2728), 
   (2730, 2736), (2738, 2739), (2741, 2745), (2749, 2749), (2768, 2768), (2784, 2785), 
   (2790, 2799), (2809, 2809), (2821, 2828), (2831, 2832), (2835, 2856), (2858, 2864), 
   (2866, 2867), (2869, 2873), (2877, 2877), (2908, 2909), (2911, 2913), (2918, 2927), 
   (2929, 2935), (2947, 2947), (2949, 2954), (2958, 2960), (2962, 2965), (2969, 2970), 
   (2972, 2972), (2974, 2975), (2979, 2980), (2984, 2986), (2990, 3001), (3024, 3024), 
   (3046, 3058), (3077, 3084), (3086, 3088), (3090, 3112), (3114, 3129), (3133, 3133), 
   (3160, 3162), (3165, 3165), (3168, 3169), (3174, 3183), (3192, 3198), (3200, 3200), 
   (3205, 3212), (3214, 3216), (3218, 3240), (3242, 3251), (3253, 3257), (3261, 3261), 
   (3293, 3294), (3296, 3297), (3302, 3311), (3313, 3314), (3332, 3340), (3342, 3344), 
   (3346, 3386), (3389, 3389), (3406, 3406), (3412, 3414), (3416, 3425), (3430, 3448), 
   (3450, 3455), (3461, 3478), (3482, 3505), (3507, 3515), (3517, 3517), (3520, 3526), 
   (3558, 3567), (3585, 3632), (3634, 3635), (3648, 3654), (3664, 3673), (3713, 3714), 
   (3716, 3716), (3718, 3722), (3724, 3747), (3749, 3749), (3751, 3760), (3762, 3763), 
   (3773, 3773), (3776, 3780), (3782, 3782), (3792, 3801), (3804, 3807), (3840, 3840), 
   (3872, 3891), (3904, 3911), (3913, 3948), (3976, 3980), (4096, 4138), (4159, 4169), 
   (4176, 4181), (4186, 4189), (4193, 4193), (4197, 4198), (4206, 4208), (4213, 4225), 
   (4238, 4238), (4240, 4249), (4256, 4293), (4295, 4295), (4301, 4301), (4304, 4346), 
   (4348, 4680), (4682, 4685), (4688, 4694), (4696, 4696), (4698, 4701), (4704, 4744), 
   (4746, 4749), (4752, 4784), (4786, 4789), (4792, 4798), (4800, 4800), (4802, 4805), 
   (4808, 4822), (4824, 4880), (4882, 4885), (4888, 4954), (4969, 4988), (4992, 5007), 
   (5024, 5109), (5112, 5117), (5121, 5740), (5743, 5759), (5761, 5786), (5792, 5866), 
   (5870, 5880), (5888, 5905), (5919, 5937), (5952, 5969), (5984, 5996), (5998, 6000), 
   (6016, 6067), (6103, 6103), (6108, 6108), (6112, 6121), (6128, 6137), (6160, 6169), 
   (6176, 6264), (6272, 6276), (6279, 6312), (6314, 6314), (6320, 6389), (6400, 6430), 
   (6470, 6509), (6512, 6516), (6528, 6571), (6576, 6601), (6608, 6618), (6656, 6678), 
   (6688, 6740), (6784, 6793), (6800, 6809), (6823, 6823), (6917, 6963), (6981, 6988), 
   (6992, 7001), (7043, 7072), (7086, 7141), (7168, 7203), (7232, 7241), (7245, 7293), 
   (7296, 7304), (7312, 7354), (7357, 7359), (7401, 7404), (7406, 7411), (7413, 7414), 
   (7418, 7418), (7424, 7615), (7680, 7957), (7960, 7965), (7968, 8005), (8008, 8013), 
   (8016, 8023), (8025, 8025), (8027, 8027), (8029, 8029), (8031, 8061), (8064, 8116), 
   (8118, 8124), (8126, 8126), (8130, 8132), (8134, 8140), (8144, 8147), (8150, 8155), 
   (8160, 8172), (8178, 8180), (8182, 8188), (8304, 8305), (8308, 8313), (8319, 8329), 
   (8336, 8348), (8450, 8450), (8455, 8455), (8458, 8467), (8469, 8469), (8473, 8477), 
   (8484, 8484), (8486, 8486), (8488, 8488), (8490, 8493), (8495, 8505), (8508, 8511), 
   (8517, 8521), (8526, 8526), (8528, 8585), (9312, 9371), (9450, 9471), (10102, 10131), 
   (11264, 11492), (11499, 11502), (11506, 11507), (11517, 11517), (11520, 11557), 
   (11559, 11559), (11565, 11565), (11568, 11623), (11631, 11631), (11648, 11670), 
   (11680, 11686), (11688, 11694), (11696, 11702), (11704, 11710), (11712, 11718), 
   (11720, 11726), (11728, 11734), (11736, 11742), (11823, 11823), (12293, 12295), 
   (12321, 12329), (12337, 12341), (12344, 12348), (12353, 12438), (12445, 12447), 
   (12449, 12538), (12540, 12543), (12549, 12591), (12593, 12686), (12690, 12693), 
   (12704, 12735), (12784, 12799), (12832, 12841), (12872, 12879), (12881, 12895), 
   (12928, 12937), (12977, 12991), (13312, 19903), (19968, 42124), (42192, 42237), 
   (42240, 42508), (42512, 42539), (42560, 42606), (42623, 42653), (42656, 42735), 
   (42775, 42783), (42786, 42888), (42891, 42954), (42960, 42961), (42963, 42963), 
   (42965, 42969), (42994, 43009), (43011, 43013), (43015, 43018), (43020, 43042), 
   (43056, 43061), (43072, 43123), (43138, 43187), (43216, 43225), (43250, 43255), 
   (43259, 43259), (43261, 43262), (43264, 43301), (43312, 43334), (43360, 43388), 
   (43396, 43442), (43471, 43481), (43488, 43492), (43494, 43518), (43520, 43560), 
   (43584, 43586), (43588, 43595), (43600, 43609), (43616, 43638), (43642, 43642), 
   (43646, 43695), (43697, 43697), (43701, 43702), (43705, 43709), (43712, 43712), 
   (43714, 43714), (43739, 43741), (43744, 43754), (43762, 43764), (43777, 43782), 
   (43785, 43790), (43793, 43798), (43808, 43814), (43816, 43822), (43824, 43866), 
   (43868, 43881), (43888, 44002), (44016, 44025), (44032, 55203), (55216, 55238), 
   (55243, 55291), (63744, 64109), (64112, 64217), (64256, 64262), (64275, 64279), 
   (64285, 64285), (64287, 64296), (64298, 64310), (64312, 64316), (64318, 64318), 
   (64320, 64321), (64323, 64324), (64326, 64433), (64467, 64829), (64848, 64911), 
   (64914, 64967), (65008, 65019), (65136, 65140), (65142, 65276), (65296, 65305), 
   (65313, 65338), (65345, 65370), (65382, 65470), (65474, 65479), (65482, 65487), 
   (65490, 65495), (65498, 65500), (65536, 65547), (65549, 65574), (65576, 65594), 
   (65596, 65597), (65599, 65613), (65616, 65629), (65664, 65786), (65799, 65843), 
   (65856, 65912), (65930, 65931), (66176, 66204), (66208, 66256), (66273, 66299), 
   (66304, 66339), (66349, 66378), (66384, 66421), (66432, 66461), (66464, 66499), 
   (66504, 66511), (66513, 66517), (66560, 66717), (66720, 66729), (66736, 66771), 
   (66776, 66811), (66816, 66855), (66864, 66915), (66928, 66938), (66940, 66954), 
   (66956, 66962), (66964, 66965), (66967, 66977), (66979, 66993), (66995, 67001), 
   (67003, 67004), (67072, 67382), (67392, 67413), (67424, 67431), (67456, 67461), 
   (67463, 67504), (67506, 67514), (67584, 67589), (67592, 67592), (67594, 67637), 
   (67639, 67640), (67644, 67644), (67647, 67669), (67672, 67702), (67705, 67742), 
   (67751, 67759), (67808, 67826), (67828, 67829), (67835, 67867), (67872, 67897), 
   (67968, 68023), (68028, 68047), (68050, 68096), (68112, 68115), (68117, 68119), 
   (68121, 68149), (68160, 68168), (68192, 68222), (68224, 68255), (68288, 68295), 
   (68297, 68324), (68331, 68335), (68352, 68405), (68416, 68437), (68440, 68466), 
   (68472, 68497), (68521, 68527), (68608, 68680), (68736, 68786), (68800, 68850), 
   (68858, 68899), (68912, 68921), (69216, 69246), (69248, 69289), (69296, 69297), 
   (69376, 69415), (69424, 69445), (69457, 69460), (69488, 69505), (69552, 69579), 
   (69600, 69622), (69635, 69687), (69714, 69743), (69745, 69746), (69749, 69749), 
   (69763, 69807), (69840, 69864), (69872, 69881), (69891, 69926), (69942, 69951), 
   (69956, 69956), (69959, 69959), (69968, 70002), (70006, 70006), (70019, 70066), 
   (70081, 70084), (70096, 70106), (70108, 70108), (70113, 70132), (70144, 70161), 
   (70163, 70187), (70272, 70278), (70280, 70280), (70282, 70285), (70287, 70301), 
   (70303, 70312), (70320, 70366), (70384, 70393), (70405, 70412), (70415, 70416), 
   (70419, 70440), (70442, 70448), (70450, 70451), (70453, 70457), (70461, 70461), 
   (70480, 70480), (70493, 70497), (70656, 70708), (70727, 70730), (70736, 70745), 
   (70751, 70753), (70784, 70831), (70852, 70853), (70855, 70855), (70864, 70873), 
   (71040, 71086), (71128, 71131), (71168, 71215), (71236, 71236), (71248, 71257), 
   (71296, 71338), (71352, 71352), (71360, 71369), (71424, 71450), (71472, 71483), 
   (71488, 71494), (71680, 71723), (71840, 71922), (71935, 71942), (71945, 71945), 
   (71948, 71955), (71957, 71958), (71960, 71983), (71999, 71999), (72001, 72001), 
   (72016, 72025), (72096, 72103), (72106, 72144), (72161, 72161), (72163, 72163), 
   (72192, 72192), (72203, 72242), (72250, 72250), (72272, 72272), (72284, 72329), 
   (72349, 72349), (72368, 72440), (72704, 72712), (72714, 72750), (72768, 72768), 
   (72784, 72812), (72818, 72847), (72960, 72966), (72968, 72969), (72971, 73008), 
   (73030, 73030), (73040, 73049), (73056, 73061), (73063, 73064), (73066, 73097), 
   (73112, 73112), (73120, 73129), (73440, 73458), (73648, 73648), (73664, 73684), 
   (73728, 74649), (74752, 74862), (74880, 75075), (77712, 77808), (77824, 78894), 
   (82944, 83526), (92160, 92728), (92736, 92766), (92768, 92777), (92784, 92862), 
   (92864, 92873), (92880, 92909), (92928, 92975), (92992, 92995), (93008, 93017), 
   (93019, 93025), (93027, 93047), (93053, 93071), (93760, 93846), (93952, 94026), 
   (94032, 94032), (94099, 94111), (94176, 94177), (94179, 94179), (94208, 100343), 
   (100352, 101589), (101632, 101640), (110576, 110579), (110581, 110587), (110589, 110590), 
   (110592, 110882), (110928, 110930), (110948, 110951), (110960, 111355), (113664, 113770), 
   (113776, 113788), (113792, 113800), (113808, 113817), (119520, 119539), (119648, 119672), 
   (119808, 119892), (119894, 119964), (119966, 119967), (119970, 119970), (119973, 119974), 
   (119977, 119980), (119982, 119993), (119995, 119995), (119997, 120003), (120005, 120069), 
   (120071, 120074), (120077, 120084), (120086, 120092), (120094, 120121), (120123, 120126), 
   (120128, 120132), (120134, 120134), (120138, 120144), (120146, 120485), (120488, 120512), 
   (120514, 120538), (120540, 120570), (120572, 120596), (120598, 120628), (120630, 120654), 
   (120656, 120686), (120688, 120712), (120714, 120744), (120746, 120770), (120772, 120779), 
   (120782, 120831), (122624, 122654), (123136, 123180), (123191, 123197), (123200, 123209), 
   (123214, 123214), (123536, 123565), (123584, 123627), (123632, 123641), (124896, 124902), 
   (124904, 124907), (124909, 124910), (124912, 124926), (124928, 125124), (125127, 125135), 
   (125184, 125251), (125259, 125259), (125264, 125273), (126065, 126123), (126125, 126127), 
   (126129, 126132), (126209, 126253), (126255, 126269), (126464, 126467), (126469, 126495), 
   (126497, 126498), (126500, 126500), (126503, 126503), (126505, 126514), (126516, 126519), 
   (126521, 126521), (126523, 126523), (126530, 126530), (126535, 126535), (126537, 126537), 
   (126539, 126539), (126541, 126543), (126545, 126546), (126548, 126548), (126551, 126551), 
   (126553, 126553), (126555, 126555), (126557, 126557), (126559, 126559), (126561, 126562), 
   (126564, 126564), (126567, 126570), (126572, 126578), (126580, 126583), (126585, 126588), 
   (126590, 126590), (126592, 126601), (126603, 126619), (126625, 126627), (126629, 126633), 
   (126635, 126651), (127232, 127244), (130032, 130041), (131072, 173791), (173824, 177976), 
   (177984, 178205), (178208, 183969), (183984, 191456), (194560, 195101), (196608, 201546)]

/-- `\\w` on `str`: underscore or Unicode alphanumeric (see `pyWordRanges`). -/
def isWordChar (c : Char) : Bool :=
  pyWordRanges.any (fun r => r.1 ≤ c.toNat && c.toNat ≤ r.2)

/-- The Unicode whitespace characters of Python's `\\s` on `str` and of
`str.strip()` and `str.isspace()` (`Py_UNICODE_ISSPACE`, Unicode 14.0.0):
tab through carriage return (9-13), the separators 28-31, space (32),
next line (133), no-break space (160), ogham space (5760), the en/em family
(8192-8202), line and paragraph separators (8232, 8233), narrow no-break
space (8239), medium mathematical space (8287) and ideographic space
(12288). -/
def isSpaceChar (c : Char) : Bool :=
  (9 ≤ c.toNat && c.toNat ≤ 13) || (28 ≤ c.toNat && c.toNat ≤ 32) ||
    c.toNat == 133 || c.toNat == 160 || c.toNat == 5760 ||
    (8192 ≤ c.toNat && c.toNat ≤ 8202) || c.toNat == 8232 || c.toNat == 8233 ||
    c.toNat == 8239 || c.toNat == 8287 || c.toNat == 12288

/-! ### Python string helpers -/

/-- Python `str.strip()`: remove leading and trailing whitespace. -/
def pyStrip (s : String) : String :=
  ⟨((s.toList.dropWhile isSpaceChar).reverse.dropWhile isSpaceChar).reverse⟩

/-- Python `str.lstrip('.')`: remove leading dots. -/
def lstripDots (s : String) : String :=
  ⟨s.toList.dropWhile (· == '.')⟩

/-! ### POSIX path helpers (`os.path` on a POSIX system) -/

/-- `os.path.isabs(p)`: the path begins with a slash. -/
def isAbs (p : String) : Bool :=
  p.toList.head? == some '/'

/-- `os.path.join(a, b)` (two-argument POSIX form). -/
def pyJoin (a b : String) : String :=
  if isAbs b then b
  else if a == "" || a.toList.getLast? == some '/' then a ++ b
  else a ++ "/" ++ b

/-- Split a character list on `'/'`; Python `str.split('/')` (so `""` splits
to `[""]` and consecutive separators produce empty components). -/
def splitSlash : List Char → List (List Char)
  | [] => [[]]
  | c :: rest =>
    if c == '/' then [] :: splitSlash rest
    else
      match splitSlash rest with
      | g :: gs => (c :: g) :: gs
      | [] => [[c]]

/-- Number of leading slashes retained by `os.path.normpath`: one initial
slash is kept as one, exactly two are kept as two (POSIX special case),
three or more collapse to one. -/
def normpathInitialSlashes (cs : List Char) : Nat :=
  match cs with
  | '/' :: '/' :: '/' :: _ => 1
  | '/' :: '/' :: _ => 2
  | '/' :: _ => 1
  | _ => 0

/-- The component-filtering fold inside `os.path.normpath`. -/
def normpathComps (initialSlashes : Nat) : List String → List String → List String
  | acc, [] => acc
  | acc, comp :: rest =>
    if comp = "" || comp = "." then normpathComps initialSlashes acc rest
    else if comp ≠ ".." || (initialSlashes = 0 ∧ acc = []) ||
        (acc ≠ [] ∧ acc.getLast? = some "..") then
      normpathComps initialSlashes (acc ++ [comp]) rest
    else if acc ≠ [] then normpathComps initialSlashes acc.dropLast rest
    else normpathComps initialSlashes acc rest

/-- `os.path.normpath(p)` (POSIX). -/
def pyNormpath (p : String) : String :=
  if p = "" then "."
  else
    let initialSlashes := normpathInitialSlashes p.toList
    let comps := (splitSlash p.toList).map (fun cs => (⟨cs⟩ : String))
    let newComps := normpathComps initialSlashes [] comps
    let joined := String.intercalate "/" newComps
    let res := ⟨List.replicate initialSlashes '/'⟩ ++ joined
    if res = "" then "." else res

/-- `os.path.split(p)` (POSIX): split after the last slash, then strip
trailing slashes from the head unless the head is all slashes. -/
def pySplit (p : String) : String × String
  :=
  let cs := p.toList
  let tailLen := (cs.reverse.takeWhile (· ≠ '/')).length
  let head := cs.take (cs.length - tailLen)
  let tl := cs.drop (cs.length - tailLen)
  let head' :=
    if head ≠ [] ∧ head.any (· ≠ '/') then (head.reverse.dropWhile (· == '/')).reverse
    else head
  (⟨head'⟩, ⟨tl⟩)

/-- `os.path.dirname(p)` (POSIX): the first component of `os.path.split`. -/
def pyDirname (p : String) : String :=
  (pySplit p).1

/-- Index just past the last occurrence of `c`, or `none`. -/
def lastIdx (cs : List Char) (c : Char) : Option Nat :=
  let t := (cs.reverse.takeWhile (· ≠ c)).length
  if t = cs.length then none else some (cs.length - t - 1)

/-- `os.path.splitext(p)` (POSIX): split off the extension beginning at the
last dot of the basename, unless the basename consists only of leading dots
up to that dot. -/
def pySplitext (p : String) : String × String :=
  let cs := p.toList
  match lastIdx cs '.' with
  | none => (p, "")
  | some dotIndex =>
    let fnameStart :=
      match lastIdx cs '/' with
      | none => 0
      | some s => s + 1
    if fnameStart ≤ dotIndex ∧
        ((cs.drop fnameStart).take (dotIndex - fnameStart)).any (· ≠ '.') then
      (⟨cs.take dotIndex⟩, ⟨cs.drop dotIndex⟩)
    else (p, "")

/-! ### The URL pattern `^[a-z]+:` (`_is_url` / `_R_URL`) -/

/-- Scan lowercase letters; succeed at the first non-lowercase character iff
it is `':'` and at least one lowercase letter was seen. -/
def is_url_aux : List Char → Bool → Bool
  | [], _ => false
  | c :: rest, seen =>
    if isLowerAZ c then is_url_aux rest true
    else c == ':' && seen

/-- `_is_url(path)`: `re.match(r'^[a-z]+:', path)` is not `None`. -/
def is_url (p : String) : Bool :=
  is_url_aux p.toList false

/-! ### Variable table and variable substitution

The Python variable table is a `dict` shared by reference; it is embedded as
an association list threaded in state-passing style.  `varsGet` is
`variables.get(name, ...)` (first matching entry), `varsSet` is
`variables[name] = value` (replace the existing entry or append). -/

abbrev Vars := List (String × String)

def varsGet (vars : Vars) (name : String) : Option String :=
  List.lookup name vars

def varsSet (vars : Vars) (name value : String) : Vars :=
  match vars with
  | [] => [(name, value)]
  | (k, v) :: rest =>
    if k = name then (name, value) :: rest else (k, v) :: varsSet rest name value

/-- Try to match the regex `\{\{\s*([_a-zA-Z]\w*)\s*\}\}` at the head of the
character list; on success return the captured identifier and the remainder.
(The greedy scans need no backtracking because the classes `\s`, `[_a-zA-Z]\w*`
and the brace are pairwise disjoint.) -/
def matchToken (cs : List Char) : Option (String × List Char) :=
  match cs with
  | c1 :: c2 :: rest =>
    if c1 = '{' ∧ c2 = '{' then
      match rest.dropWhile isSpaceChar with
      | c :: rest2 =>
        if isIdentStart c then
          let wordTail := rest2.takeWhile isWordChar
          match (rest2.drop wordTail.length).dropWhile isSpaceChar with
          | d1 :: d2 :: rest5 =>
            if d1 = '}' ∧ d2 = '}' then some (⟨c :: wordTail⟩, rest5) else none
          | _ => none
        else none
      | [] => none
    else none
  | _ => none

/-- The `re.sub` scan of `_replace_variables`: at each position, if the token
pattern matches, emit `str(variables.get(name, ''))` and continue after the
match; otherwise emit the character and advance one position.  The fuel
argument (instantiated with the input length, which every step strictly
decreases below) keeps the recursion structural. -/
def replace_variables_aux (vars : Vars) : Nat → List Char → List Char
  | _, [] => []
  | 0, cs => cs
  | fuel + 1, c :: rest =>
    match matchToken (c :: rest) with
    | some (name, after) =>
      ((varsGet vars name).getD "").toList ++ replace_variables_aux vars fuel after
    | none => c :: replace_variables_aux vars fuel rest

/-- `_replace_variables(text, variables)`. -/
def replace_variables (text : String) (vars : Vars) : String :=
  ⟨replace_variables_aux vars text.toList.length text.toList⟩

/-! ### Configuration items

`CtxKitItem` is a union with exactly one case active per item
(`item_key = list(item.keys())[0]`).  The `incl` constructor embeds the
`include` item kind.  `dir` carries the `CtxKitDir` fields (`path`, `exts`,
`depth`, with the schema default `depth = 0`); `var` carries `CtxKitVariable`
(`name`, `value`). -/

inductive Item where
  | config (path : String)
  | message (text : String)
  | long (lines : List String)
  | incl (path : String)
  | file (path : String)
  | dir (path : String) (exts : List String) (depth : Nat)
  | var (name : String) (value : String)
deriving DecidableEq

instance {ε α : Type} [DecidableEq ε] [DecidableEq α] : DecidableEq (Except ε α) :=
  fun x y =>
    match x, y with
    | .ok a, .ok b =>
      if h : a = b then isTrue (by rw [h]) else isFalse (by simp [h])
    | .error e, .error f =>
      if h : e = f then isTrue (by rw [h]) else isFalse (by simp [h])
    | .ok _, .error _ => isFalse (by simp)
    | .error _, .ok _ => isFalse (by simp)

/-- One entry reported by `os.scandir`. -/
inductive DirEntry where
  | file (name : String)
  | dir (name : String)
deriving DecidableEq

/-- External collaborators: `read` is the raw content provider behind
`_fetch_text` (local file read or HTTP GET; `.error` is the exception
message), `scan` is `os.scandir` (entries in scan order), and `parse` is
`json.loads` plus `schema_markdown.validate_type` applied to a fetched
config text. -/
structure Env where
  read : String → Except String String
  scan : String → Except String (List DirEntry)
  parse : String → Except String (List Item)

/-- `_fetch_text(path)`: fetch and strip leading/trailing whitespace. -/
def fetch_text (env : Env) (path : String) : Except String String :=
  (env.read path).map pyStrip

/-! ### Directory enumeration (`_get_directory_files`) -/

/-- An element yielded by `_get_directory_files_helper`:
`(os.path.split(file_path), file_path)`. -/
abbrev DirPair := (String × String) × String

/-- The body of `_get_directory_files_helper`'s `for entry in os.scandir(...)`
loop, parameterized by the recursive call used for subdirectories.  A `none`
result is fuel exhaustion; `.error` is a raised exception, which discards all
files already yielded (the caller consumes the generator with `list(...)`,
so an exception loses every partial yield). -/
def get_directory_files_go (recur : String → Nat → Option (Except String (List DirPair)))
    (dirName : String) (exts : List String) (curDepth : Nat) :
    List DirEntry → Option (Except String (List DirPair))
  | [] => some (.ok [])
  | DirEntry.file name :: rest =>
    let fp := pyNormpath (pyJoin dirName name)
    (match get_directory_files_go recur dirName exts curDepth rest with
     | some (.ok l) =>
       some (.ok (if exts.contains (pySplitext name).2 then (pySplit fp, fp) :: l else l))
     | r => r)
  | DirEntry.dir name :: rest =>
    match recur (pyJoin dirName name) (curDepth + 1) with
    | none => none
    | some (.error e) => some (.error e)
    | some (.ok sub) =>
      match get_directory_files_go recur dirName exts curDepth rest with
      | some (.ok l) => some (.ok (sub ++ l))
      | r => r

/-- `_get_directory_files_helper(dir_name, file_exts, max_depth, current_depth)`
with a fuel bound on directory nesting. -/
def get_directory_files_helper (env : Env) (exts : List String) (maxDepth : Nat) :
    Nat → String → Nat → Option (Except String (List DirPair))
  | 0, _, _ => none
  | fuel + 1, dirName, curDepth =>
    if 0 < maxDepth ∧ maxDepth ≤ curDepth then some (.ok [])
    else
      match env.scan dirName with
      | .error e => some (.error e)
      | .ok entries =>
        get_directory_files_go
          (fun d cd => get_directory_files_helper env exts maxDepth fuel d cd)
          dirName exts curDepth entries

/-- Python's `<` on strings: strict lexicographic comparison of the
character sequences by code point. -/
def charsLt : List Char → List Char → Bool
  | [], [] => false
  | [], _ :: _ => true
  | _ :: _, [] => false
  | a :: as, b :: bs => if a = b then charsLt as bs else decide (a < b)

/-- Python `a < b` on strings. -/
def strLt (a b : String) : Bool :=
  charsLt a.toList b.toList

/-- Python `a <= b` on strings. -/
def strLe (a b : String) : Bool :=
  strLt a b || decide (a = b)

/-- The sort key order used by `sorted` in `_get_directory_files`: Python
tuple comparison on `((head, tail), path)` — lexicographic on the split pair,
then on the path. -/
def pairLe (x y : DirPair) : Bool :=
  if x.1.1 = y.1.1 then
    if x.1.2 = y.1.2 then strLe x.2 y.2 else strLt x.1.2 y.1.2
  else strLt x.1.1 y.1.1

/-- `pairLe` as a relation, for `List.insertionSort` and `List.Sorted`. -/
abbrev pairLeR : DirPair → DirPair → Prop := fun x y => pairLe x y = true

/-- `_get_directory_files(dir_name, file_exts, max_depth)`: stable-sort the
yielded `(split, path)` pairs and keep the paths.  (Python's `sorted` is a
stable ascending sort; since `pairLe` is a total, transitive and
antisymmetric order, the stable insertion sort used here produces the
identical list.) -/
def get_directory_files (env : Env) (fuel : Nat) (dirName : String)
    (fileExts : List String) (maxDepth : Nat) : Option (Except String (List String)) :=
  (get_directory_files_helper env fileExts maxDepth fuel dirName 0).map
    (Except.map (fun prs => (List.insertionSort pairLeR prs).map (·.2)))

/-! ### The config resolution engine (`process_config_items`) -/

/-- The outcome of consuming the `process_config_items` generator:
`ok frags vars` — all items processed, yielding `frags` and leaving the
shared table at `vars`; `fail frags msg` — an exception with message `msg`
was raised after yielding `frags`; `spent` — the fuel bound on config/dir
nesting depth was reached (no Python counterpart; never identified with
programme behaviour). -/
inductive PResult where
  | ok (frags : List String) (vars : Vars)
  | fail (frags : List String) (msg : String)
  | spent
deriving DecidableEq

/-- Lines 105-114 of `main.py`: substitute variables into the raw item path
and, when the result is neither a URL nor absolute, join it with the current
base directory and normalize. -/
def resolve_item_path (raw : String) (vars : Vars) (rootDir : String) : String :=
  let p := replace_variables raw vars
  if ¬ is_url p ∧ ¬ isAbs p then pyNormpath (pyJoin rootDir p) else p

/-- The fragment yielded for one file by the `file` and `dir` item cases:
`f'<{path}>\n{text}{"\n" if text else ""}</{path}>'`. -/
def file_fragment (p t : String) : String :=
  "<" ++ p ++ ">\n" ++ t ++ (if t = "" then "" else "\n") ++ "</" ++ p ++ ">"

/-- The `for file_path in dir_files` fetch loop of the `dir` item case:
fragments yielded before a fetch error are kept (they were already printed
by the driver when the exception surfaces). -/
def fetch_dir_frags (env : Env) : List String → List String × Option String
  | [] => ([], none)
  | fp :: rest =>
    match fetch_text env fp with
    | .error e => ([], some e)
    | .ok t =>
      let (fs, err) := fetch_dir_frags env rest
      (file_fragment fp t :: fs, err)

/-- The per-item dispatch of `process_config_items`, parameterized by the
recursive call `recur` used by the `config` case (which receives the same
variable table and the directory of the resolved config path as the new base
directory). -/
def process_item (recur : List Item → Vars → String → PResult) (env : Env)
    (dirFuel : Nat) (item : Item) (vars : Vars) (rootDir : String) : PResult :=
  match item with
  | .config raw =>
    let p := resolve_item_path raw vars rootDir
    (match fetch_text env p with
     | .error e => .fail [] e
     | .ok text =>
       match env.parse text with
       | .error e => .fail [] e
       | .ok sub => recur sub vars (pyDirname p))
  | .incl raw =>
    (match fetch_text env (resolve_item_path raw vars rootDir) with
     | .error e => .fail [] e
     | .ok t => .ok [t] vars)
  | .file raw =>
    let p := resolve_item_path raw vars rootDir
    (match fetch_text env p with
     | .error e => .fail [] e
     | .ok t => .ok [file_fragment p t] vars)
  | .dir raw exts depth =>
    let p := resolve_item_path raw vars rootDir
    let dirExts := exts.map (fun e => "." ++ lstripDots e)
    (match get_directory_files env dirFuel p dirExts depth with
     | none => .spent
     | some (.error e) => .fail [] e
     | some (.ok []) => .fail [] ("No files found, \"" ++ p ++ "\"")
     | some (.ok files) =>
       match fetch_dir_frags env files with
       | (fs, none) => .ok fs vars
       | (fs, some e) => .fail fs e)
  | .var name value => .ok [] (varsSet vars name value)
  | .long lines => .ok [replace_variables (String.intercalate "\n" lines) vars] vars
  | .message text => .ok [replace_variables text vars] vars

/-- The `for item in config['items']` loop: process the head item, then the
tail with the updated variable table; an exception keeps the fragments
already yielded and discards the tail. -/
def process_items_go (recur : List Item → Vars → String → PResult) (env : Env)
    (dirFuel : Nat) : List Item → Vars → String → PResult
  | [], vars, _ => .ok [] vars
  | item :: rest, vars, rootDir =>
    match process_item recur env dirFuel item vars rootDir with
    | .spent => .spent
    | .fail fs e => .fail fs e
    | .ok fs vars' =>
      match process_items_go recur env dirFuel rest vars' rootDir with
      | .spent => .spent
      | .fail fs2 e => .fail (fs ++ fs2) e
      | .ok fs2 vars'' => .ok (fs ++ fs2) vars''

/-- `process_config_items(config, variables, root_dir)`, with fuel bounding
the config/directory nesting depth. -/
def process_config_items (env : Env) : Nat → List Item → Vars → String → PResult
  | 0, _, _, _ => .spent
  | fuel + 1, items, vars, rootDir =>
    process_items_go (fun sub v r => process_config_items env fuel sub v r)
      env fuel items vars rootDir

/-- Sequencing combinator describing how `process_items_go` composes two
item groups: the second group starts from the variable table the first group
ends with, and contributes nothing if the first group raised. -/
def presult_seq (r : PResult) (k : Vars → PResult) : PResult :=
  match r with
  | .spent => .spent
  | .fail fs e => .fail fs e
  | .ok fs vs =>
    match k vs with
    | .spent => .spent
    | .fail fs2 e => .fail (fs ++ fs2) e
    | .ok fs2 vs2 => .ok (fs ++ fs2) vs2

/-- `process_config(config, variables, root_dir)`:
`'\n\n'.join(process_config_items(...))`. -/
def process_config (env : Env) (fuel : Nat) (items : List Item) (vars : Vars)
    (rootDir : String) : Option (Except String String) :=
  match process_config_items env fuel items vars rootDir with
  | .ok frags _ => some (.ok (String.intercalate "\n\n" frags))
  | .fail _ e => some (.error e)
  | .spent => none

/-- What the driver loop of `main` prints to stdout for a fragment sequence:
`print()` between consecutive fragments and `print(item_text)` for each, i.e.
the fragments joined by a blank line with one terminal newline. -/
def print_frags (frags : List String) : String :=
  match frags with
  | [] => ""
  | _ => String.intercalate "\n\n" frags ++ "\n"

/-- Lines 86-93 of `main.py` (the resolution driver, after CLI parsing and
top-level validation): returns `(stdout, stderr, exit code)`, where a raised
exception yields one `Error: <message>` line on stderr and exit status 2,
and success exits 0 with empty stderr.  Fragments yielded before an
exception were already printed. -/
def main_run (env : Env) (fuel : Nat) (items : List Item) :
    Option (String × String × Nat) :=
  match process_config_items env fuel items [] "." with
  | .ok frags _ => some (print_frags frags, "", 0)
  | .fail frags e => some (print_frags frags, "Error: " ++ e ++ "\n", 2)
  | .spent => none

/-- A small concrete collaborator environment used to evaluate the engine on
closed inputs: a flat file `f1`, a directory tree `d/a-b/f.txt`, `d/a/g.txt`,
and a config file `sub/cfg.json` whose (abstracted) parse is one message
item; everything else errors. -/
def demoEnv : Env where
  read p :=
    if p = "f1" then .ok " hello "
    else if p = "d/a/g.txt" then .ok "G"
    else if p = "d/a-b/f.txt" then .ok "F"
    else if p = "sub/cfg.json" then .ok "CFG"
    else .error "nope"
  scan p :=
    if p = "d" then .ok [.dir "a-b", .dir "a"]
    else if p = "d/a-b" then .ok [.file "f.txt"]
    else if p = "d/a" then .ok [.file "g.txt"]
    else .error "noscan"
  parse t :=
    if t = "CFG" then .ok [.message "B"] else .error "bad"

/-! ### Structural lemmas about the engine -/

theorem process_items_go_cons (recur : List Item → Vars → String → PResult)
    (env : Env) (dirFuel : Nat) (item : Item) (rest : List Item) (vars : Vars)
    (rootDir : String) :
    process_items_go recur env dirFuel (item :: rest) vars rootDir
      = presult_seq (process_item recur env dirFuel item vars rootDir)
          (fun vs => process_items_go recur env dirFuel rest vs rootDir) := by
  cases h : process_item recur env dirFuel item vars rootDir with
  | spent => simp [process_items_go, presult_seq, h]
  | fail fs e => simp [process_items_go, presult_seq, h]
  | ok fs vs =>
    cases h2 : process_items_go recur env dirFuel rest vs rootDir with
    | spent => simp [process_items_go, presult_seq, h, h2]
    | fail fs2 e => simp [process_items_go, presult_seq, h, h2]
    | ok fs2 vs2 => simp [process_items_go, presult_seq, h, h2]

theorem presult_seq_assoc (r : PResult) (k1 : Vars → PResult) (k2 : Vars → PResult) :
    presult_seq (presult_seq r k1) k2
      = presult_seq r (fun vs => presult_seq (k1 vs) k2) := by
  cases r with
  | spent => rfl
  | fail fs e => rfl
  | ok fs vs =>
    cases h1 : k1 vs with
    | spent => simp [presult_seq, h1]
    | fail fs1 e => simp [presult_seq, h1]
    | ok fs1 vs1 =>
      cases h2 : k2 vs1 with
      | spent => simp [presult_seq, h1, h2]
      | fail fs2 e => simp [presult_seq, h1, h2]
      | ok fs2 vs2 => simp [presult_seq, h1, h2]

theorem process_items_go_append (recur : List Item → Vars → String → PResult)
    (env : Env) (dirFuel : Nat) (xs ys : List Item) (vars : Vars) (rootDir : String) :
    process_items_go recur env dirFuel (xs ++ ys) vars rootDir
      = presult_seq (process_items_go recur env dirFuel xs vars rootDir)
          (fun vs => process_items_go recur env dirFuel ys vs rootDir) := by
  induction xs generalizing vars with
  | nil =>
    simp only [List.nil_append, process_items_go, presult_seq]
    cases process_items_go recur env dirFuel ys vars rootDir with
    | spent => rfl
    | fail fs e => simp
    | ok fs vs => simp
  | cons item rest ih =>
    rw [List.cons_append, process_items_go_cons, process_items_go_cons,
      presult_seq_assoc]
    congr 1
    funext vs
    exact ih vs

theorem main_run_codes (env : Env) (fuel : Nat) (items : List Item)
    (out errS : String) (code : Nat)
    (h : main_run env fuel items = some (out, errS, code)) :
    (code = 0 ∧ errS = "") ∨ (code = 2 ∧ ∃ msg, errS = "Error: " ++ msg ++ "\n") := by
  unfold main_run at h
  cases hp : process_config_items env fuel items [] "." with
  | spent => rw [hp] at h; exact absurd h (by simp)
  | ok frags vs =>
    rw [hp] at h
    simp only [Option.some.injEq, Prod.mk.injEq] at h
    exact Or.inl ⟨h.2.2.symm, h.2.1.symm⟩
  | fail frags e =>
    rw [hp] at h
    simp only [Option.some.injEq, Prod.mk.injEq] at h
    exact Or.inr ⟨h.2.2.symm, e, h.2.1.symm⟩

theorem varsGet_varsSet (vars : Vars) (n v m : String) :
    varsGet (varsSet vars n v) m = if m = n then some v else varsGet vars m := by
  induction vars with
  | nil =>
    simp only [varsSet, varsGet, List.lookup]
    by_cases h : m = n
    · simp [h]
    · simp [h, beq_eq_false_iff_ne.mpr h]
  | cons kv rest ih =>
    obtain ⟨k, w⟩ := kv
    simp only [varsSet]
    by_cases hk : k = n
    · subst hk
      simp only [if_pos rfl, varsGet, List.lookup]
      by_cases h : m = k
      · simp [h]
      · simp [h, beq_eq_false_iff_ne.mpr h, varsGet]
    · simp only [if_neg hk, varsGet, List.lookup]
      by_cases hmk : m = k
      · subst hmk
        simp [hk]
      · simp only [beq_eq_false_iff_ne.mpr hmk]
        simpa [varsGet] using ih

theorem process_item_config_eq (recur : List Item → Vars → String → PResult)
    (env : Env) (dirFuel : Nat) (raw : String) (vars : Vars) (root : String)
    (t : String) (sub : List Item)
    (h1 : fetch_text env (resolve_item_path raw vars root) = .ok t)
    (h2 : env.parse t = .ok sub) :
    process_item recur env dirFuel (.config raw) vars root
      = recur sub vars (pyDirname (resolve_item_path raw vars root)) := by
  simp [process_item, h1, h2]

theorem process_item_file_eq (recur : List Item → Vars → String → PResult)
    (env : Env) (dirFuel : Nat) (raw : String) (vars : Vars) (root : String)
    (c : String) (h : env.read (resolve_item_path raw vars root) = .ok c) :
    process_item recur env dirFuel (.file raw) vars root
      = .ok [file_fragment (resolve_item_path raw vars root) (pyStrip c)] vars := by
  simp [process_item, fetch_text, h, Except.map]

theorem fetch_dir_frags_all_ok (env : Env) (g : String → String) :
    ∀ files : List String, (∀ f ∈ files, env.read f = .ok (g f)) →
      fetch_dir_frags env files
        = (files.map (fun f => file_fragment f (pyStrip (g f))), none) := by
  intro files
  induction files with
  | nil => intro _; rfl
  | cons f fs ih =>
    intro h
    have hf : env.read f = .ok (g f) := h f (by simp)
    have hfs := ih (fun x hx => h x (by simp [hx]))
    simp [fetch_dir_frags, fetch_text, hf, Except.map, hfs]

theorem process_item_dir_ok (recur : List Item → Vars → String → PResult)
    (env : Env) (dirFuel : Nat) (raw : String) (exts : List String) (depth : Nat)
    (vars : Vars) (root : String) (files : List String) (g : String → String)
    (hfiles : get_directory_files env dirFuel (resolve_item_path raw vars root)
        (exts.map (fun e => "." ++ lstripDots e)) depth = some (.ok files))
    (hne : files ≠ [])
    (hread : ∀ f ∈ files, env.read f = .ok (g f)) :
    process_item recur env dirFuel (.dir raw exts depth) vars root
      = .ok (files.map (fun f => file_fragment f (pyStrip (g f)))) vars := by
  have hfrags := fetch_dir_frags_all_ok env g files hread
  cases files with
  | nil => exact absurd rfl hne
  | cons f fs => simp [process_item, hfiles, hfrags]

theorem process_item_dir_empty (recur : List Item → Vars → String → PResult)
    (env : Env) (dirFuel : Nat) (raw : String) (exts : List String) (depth : Nat)
    (vars : Vars) (root : String)
    (h : get_directory_files env dirFuel (resolve_item_path raw vars root)
        (exts.map (fun e => "." ++ lstripDots e)) depth = some (.ok [])) :
    process_item recur env dirFuel (.dir raw exts depth) vars root
      = .fail [] ("No files found, \"" ++ resolve_item_path raw vars root ++ "\"") := by
  simp [process_item, h]

theorem presult_seq_ok_nil (r : PResult) :
    presult_seq r (fun vs => .ok [] vs) = r := by
  cases r <;> simp [presult_seq]

theorem process_config_items_succ (env : Env) (fuel : Nat) (items : List Item)
    (vars : Vars) (root : String) :
    process_config_items env (fuel + 1) items vars root
      = process_items_go (fun sub v r => process_config_items env fuel sub v r)
          env fuel items vars root := rfl

theorem process_config_items_one (env : Env) (fuel : Nat) (item : Item)
    (vars : Vars) (root : String) :
    process_config_items env (fuel + 1) [item] vars root
      = process_item (fun sub v r => process_config_items env fuel sub v r)
          env fuel item vars root := by
  rw [process_config_items_succ, process_items_go_cons]
  have : (fun vs => process_items_go
      (fun sub v r => process_config_items env fuel sub v r) env fuel [] vs root)
      = fun vs => PResult.ok [] vs := rfl
  rw [this, presult_seq_ok_nil]

theorem process_config_items_var (env : Env) (fuel : Nat) (n v : String)
    (vars : Vars) (root : String) :
    process_config_items env (fuel + 1) [.var n v] vars root
      = .ok [] (varsSet vars n v) := by
  rw [process_config_items_one]; rfl

theorem process_config_ok (env : Env) (fuel : Nat) (items : List Item)
    (vars : Vars) (root : String) (frags : List String) (vs : Vars)
    (h : process_config_items env fuel items vars root = .ok frags vs) :
    process_config env fuel items vars root
      = some (.ok (String.intercalate "\n\n" frags)) := by
  simp [process_config, h]

theorem main_run_ok (env : Env) (fuel : Nat) (items : List Item)
    (frags : List String) (vs : Vars)
    (h : process_config_items env fuel items [] "." = .ok frags vs)
    (hne : frags ≠ []) :
    main_run env fuel items
      = some (String.intercalate "\n\n" frags ++ "\n", "", 0) := by
  cases frags with
  | nil => exact absurd rfl hne
  | cons f fs => simp [main_run, h, print_frags]

/-! ### Lemmas about the substitution scanner -/

theorem length_dropWhile_le {α : Type} (p : α → Bool) (l : List α) :
    (l.dropWhile p).length ≤ l.length := by
  induction l with
  | nil => simp
  | cons a l ih =>
    rw [List.dropWhile_cons]
    by_cases h : p a = true
    · rw [if_pos h]
      simp only [List.length_cons]
      omega
    · rw [if_neg h]

theorem matchToken_shrink (cs : List Char) (n : String) (after : List Char)
    (h : matchToken cs = some (n, after)) : after.length < cs.length := by
  match cs with
  | [] => simp [matchToken] at h
  | [c1] => simp [matchToken] at h
  | c1 :: c2 :: rest =>
    simp only [matchToken] at h
    by_cases hbr : c1 = '{' ∧ c2 = '{'
    case neg => rw [if_neg hbr] at h; exact absurd h (by simp)
    rw [if_pos hbr] at h
    have hdw : (rest.dropWhile isSpaceChar).length ≤ rest.length :=
      length_dropWhile_le _ _
    cases hdw1 : rest.dropWhile isSpaceChar with
    | nil => rw [hdw1] at h; exact absurd h (by simp)
    | cons c rest2 =>
      rw [hdw1] at h
      simp only [] at h
      rw [hdw1] at hdw
      by_cases hid : isIdentStart c = true
      case neg => rw [if_neg hid] at h; exact absurd h (by simp)
      rw [if_pos hid] at h
      have hdw2 :
          ((rest2.drop (rest2.takeWhile isWordChar).length).dropWhile
            isSpaceChar).length ≤ rest2.length := by
        calc ((rest2.drop (rest2.takeWhile isWordChar).length).dropWhile
                isSpaceChar).length
            ≤ (rest2.drop (rest2.takeWhile isWordChar).length).length :=
              length_dropWhile_le _ _
          _ ≤ rest2.length := by rw [List.length_drop]; omega
      cases hdw3 : (rest2.drop (rest2.takeWhile isWordChar).length).dropWhile
          isSpaceChar with
      | nil => rw [hdw3] at h; exact absurd h (by simp)
      | cons d1 tl =>
        rw [hdw3] at hdw2
        cases tl with
        | nil => rw [hdw3] at h; exact absurd h (by simp)
        | cons d2 rest5 =>
          rw [hdw3] at h
          simp only [] at h
          by_cases hbr2 : d1 = '}' ∧ d2 = '}'
          case neg => rw [if_neg hbr2] at h; exact absurd h (by simp)
          rw [if_pos hbr2] at h
          have hafter : after = rest5 := by
            simp only [Option.some.injEq, Prod.mk.injEq] at h
            exact h.2.symm
          subst hafter
          simp only [List.length_cons] at hdw hdw2 ⊢
          omega

theorem replace_variables_aux_nil (vars : Vars) (fuel : Nat) :
    replace_variables_aux vars fuel [] = [] := by
  cases fuel <;> rfl

theorem replace_variables_aux_fuel (vars : Vars) :
    ∀ f1 f2 cs, cs.length ≤ f1 → cs.length ≤ f2 →
      replace_variables_aux vars f1 cs = replace_variables_aux vars f2 cs := by
  intro f1
  induction f1 with
  | zero =>
    intro f2 cs h1 _
    have : cs = [] := List.length_eq_zero.mp (Nat.le_zero.mp h1)
    subst this
    rw [replace_variables_aux_nil, replace_variables_aux_nil]
  | succ f ih =>
    intro f2 cs h1 h2
    match cs with
    | [] => rw [replace_variables_aux_nil, replace_variables_aux_nil]
    | c :: rest =>
      match f2, h2 with
      | f2 + 1, h2 =>
        cases hm : matchToken (c :: rest) with
        | none =>
          simp only [replace_variables_aux, hm]
          simp only [List.length_cons] at h1 h2
          rw [ih f2 rest (by omega) (by omega)]
        | some pr =>
          obtain ⟨nm, after⟩ := pr
          have hlt := matchToken_shrink _ _ _ hm
          simp only [replace_variables_aux, hm]
          simp only [List.length_cons] at h1 h2 hlt
          rw [ih f2 after (by omega) (by omega)]

theorem replace_variables_aux_id (vars : Vars) :
    ∀ cs fuel, cs.tails.all (fun s => (matchToken s).isNone) = true →
      replace_variables_aux vars fuel cs = cs := by
  intro cs
  induction cs with
  | nil => intro fuel _; exact replace_variables_aux_nil vars fuel
  | cons c rest ih =>
    intro fuel hall
    rw [List.tails_cons, List.all_cons, Bool.and_eq_true] at hall
    obtain ⟨h0, h1⟩ := hall
    cases fuel with
    | zero => rfl
    | succ f =>
      simp only [replace_variables_aux]
      cases hm : matchToken (c :: rest) with
      | none => rw [ih f h1]
      | some pr => rw [hm] at h0; simp at h0

theorem identStart_not_space (c : Char) (h : isIdentStart c = true) :
    isSpaceChar c = false := by
  rw [Bool.eq_false_iff]
  intro hs
  simp only [isIdentStart, Bool.or_eq_true, Bool.and_eq_true, decide_eq_true_eq,
    Nat.beq_eq_true_eq] at h
  simp only [isSpaceChar, Bool.or_eq_true, Bool.and_eq_true, decide_eq_true_eq,
    Nat.beq_eq_true_eq] at hs
  omega

theorem takeWhile_append_of_all {α : Type} (p : α → Bool) :
    ∀ (xs ys : List α), xs.all p = true →
      (xs ++ ys).takeWhile p = xs ++ ys.takeWhile p := by
  intro xs ys
  induction xs with
  | nil => intro _; simp
  | cons x xs ih =>
    intro h
    rw [List.all_cons, Bool.and_eq_true] at h
    obtain ⟨hx, hxs⟩ := h
    simp only [List.cons_append, List.takeWhile_cons, hx, if_true]
    rw [ih hxs]

theorem matchToken_token (c : Char) (cs : List Char) (rest : List Char)
    (h1 : isIdentStart c = true) (h2 : cs.all isWordChar = true) :
    matchToken ('{' :: '{' :: (c :: (cs ++ '}' :: '}' :: rest)))
      = some (⟨c :: cs⟩, rest) := by
  have hcnospace : isSpaceChar c = false := identStart_not_space c h1
  have hbrace_word : isWordChar '}' = false := by decide
  have hbrace_space : isSpaceChar '}' = false := by decide
  simp only [matchToken, if_pos (And.intro rfl rfl)]
  rw [List.dropWhile_cons, hcnospace]
  simp only [if_false, Bool.false_eq_true]
  rw [if_pos h1]
  have htake : (cs ++ '}' :: '}' :: rest).takeWhile isWordChar = cs := by
    rw [takeWhile_append_of_all isWordChar cs _ h2, List.takeWhile_cons,
      hbrace_word]
    simp
  rw [htake]
  have hdrop : (cs ++ '}' :: '}' :: rest).drop cs.length = '}' :: '}' :: rest :=
    List.drop_left cs _
  rw [hdrop, List.dropWhile_cons, hbrace_space]
  simp

/-- Well-formed identifier strings: `[_a-zA-Z]\w*`. -/
def isIdentString (s : String) : Bool :=
  match s.toList with
  | [] => false
  | c :: cs => isIdentStart c && cs.all isWordChar

theorem replace_variables_token_step (vars : Vars) (name rest : String)
    (hident : isIdentString name = true) :
    replace_variables ("\x7b\x7b" ++ name ++ "\x7d\x7d" ++ rest) vars
      = ((varsGet vars name).getD "") ++ replace_variables rest vars := by
  obtain ⟨nameData⟩ := name
  match nameData, hident with
  | c :: cs, hident =>
    have hcls : isIdentStart c = true ∧ cs.all isWordChar = true := by
      simpa [isIdentString, String.toList, Bool.and_eq_true] using hident
    have hdata : ("\x7b\x7b" ++ (⟨c :: cs⟩ : String) ++ "\x7d\x7d" ++ rest).data
        = '{' :: '{' :: (c :: (cs ++ '}' :: '}' :: rest.data)) := by
      simp [String.data_append]
    unfold replace_variables
    simp only [String.toList, hdata]
    have hm := matchToken_token c cs rest.data hcls.1 hcls.2
    simp only [List.length_cons, replace_variables_aux, hm]
    have hfuel : replace_variables_aux vars
          ((cs ++ '}' :: '}' :: rest.data).length + 1 + 1) rest.data
        = replace_variables_aux vars rest.data.length rest.data := by
      apply replace_variables_aux_fuel
      · simp [List.length_append]; omega
      · exact Nat.le_refl _
    rw [hfuel]
    rfl

/-! ### Lemmas about directory enumeration -/

theorem get_directory_files_go_empty_exts
    (recur : String → Nat → Option (Except String (List DirPair)))
    (dirName : String) (curDepth : Nat)
    (hrec : ∀ d cd l, recur d cd = some (.ok l) → l = []) :
    ∀ (entries : List DirEntry) (l : List DirPair),
      get_directory_files_go recur dirName [] curDepth entries = some (.ok l) →
      l = [] := by
  intro entries
  induction entries with
  | nil =>
    intro l h
    simp only [get_directory_files_go, Option.some.injEq, Except.ok.injEq] at h
    exact h.symm
  | cons e rest ih =>
    cases e with
    | file name =>
      intro l h
      simp only [get_directory_files_go] at h
      cases hgo : get_directory_files_go recur dirName [] curDepth rest with
      | none => rw [hgo] at h; exact absurd h (by simp)
      | some r =>
        cases r with
        | error e => rw [hgo] at h; exact absurd h (by simp)
        | ok l' =>
          rw [hgo] at h
          simp only [List.contains_nil, Bool.false_eq_true, if_false,
            Option.some.injEq, Except.ok.injEq] at h
          rw [← h]
          exact ih l' hgo
    | dir name =>
      intro l h
      simp only [get_directory_files_go] at h
      cases hrc : recur (pyJoin dirName name) (curDepth + 1) with
      | none => rw [hrc] at h; exact absurd h (by simp)
      | some r =>
        cases r with
        | error e => rw [hrc] at h; exact absurd h (by simp)
        | ok sub =>
          rw [hrc] at h
          simp only [] at h
          have hsub : sub = [] := hrec _ _ _ hrc
          cases hgo : get_directory_files_go recur dirName [] curDepth rest with
          | none => rw [hgo] at h; exact absurd h (by simp)
          | some r2 =>
            cases r2 with
            | error e => rw [hgo] at h; exact absurd h (by simp)
            | ok l' =>
              rw [hgo] at h
              simp only [Option.some.injEq, Except.ok.injEq] at h
              rw [← h, hsub]
              simpa using ih l' hgo

theorem get_directory_files_helper_empty_exts (env : Env) (maxDepth : Nat) :
    ∀ (fuel : Nat) (dirName : String) (curDepth : Nat) (l : List DirPair),
      get_directory_files_helper env [] maxDepth fuel dirName curDepth
        = some (.ok l) → l = [] := by
  intro fuel
  induction fuel with
  | zero => intro d cd l h; exact absurd h (by simp [get_directory_files_helper])
  | succ f ih =>
    intro d cd l h
    simp only [get_directory_files_helper] at h
    by_cases hstop : 0 < maxDepth ∧ maxDepth ≤ cd
    · rw [if_pos hstop] at h
      simp only [Option.some.injEq, Except.ok.injEq] at h
      exact h.symm
    · rw [if_neg hstop] at h
      cases hscan : env.scan d with
      | error e => rw [hscan] at h; exact absurd h (by simp)
      | ok entries =>
        rw [hscan] at h
        simp only [] at h
        exact get_directory_files_go_empty_exts _ d cd
          (fun d' cd' l' h' => ih d' cd' l' h') entries l h

theorem get_directory_files_empty_exts (env : Env) (fuel : Nat) (dirName : String)
    (maxDepth : Nat) (files : List String)
    (h : get_directory_files env fuel dirName [] maxDepth = some (.ok files)) :
    files = [] := by
  unfold get_directory_files at h
  cases hh : get_directory_files_helper env [] maxDepth fuel dirName 0 with
  | none => rw [hh] at h; exact absurd h (by simp)
  | some r =>
    cases r with
    | error e => rw [hh] at h; exact absurd h (by simp [Except.map])
    | ok prs =>
      rw [hh] at h
      have hprs : prs = [] := get_directory_files_helper_empty_exts env maxDepth
        fuel dirName 0 prs hh
      subst hprs
      simp only [Option.map, Except.map, List.insertionSort, List.map_nil,
        Option.some.injEq, Except.ok.injEq] at h
      exact h.symm

/-! ### The tuple sort order: totality and transitivity -/

theorem charsLt_irrefl : ∀ l : List Char, charsLt l l = false := by
  intro l
  induction l with
  | nil => rfl
  | cons a as ih => simp [charsLt, ih]

theorem charsLt_trans :
    ∀ (x y z : List Char), charsLt x y = true → charsLt y z = true →
      charsLt x z = true := by
  intro x
  induction x with
  | nil =>
    intro y z hxy hyz
    cases y with
    | nil => simp [charsLt] at hxy
    | cons b bs =>
      cases z with
      | nil => simp [charsLt] at hyz
      | cons c cs => simp [charsLt]
  | cons a as ih =>
    intro y z hxy hyz
    cases y with
    | nil => simp [charsLt] at hxy
    | cons b bs =>
      cases z with
      | nil => simp [charsLt] at hyz
      | cons c cs =>
        simp only [charsLt] at hxy hyz ⊢
        by_cases hab : a = b
        · subst hab
          rw [if_pos rfl] at hxy
          by_cases hbc : a = c
          · subst hbc
            rw [if_pos rfl] at hyz
            rw [if_pos rfl]
            exact ih bs cs hxy hyz
          · rw [if_neg hbc] at hyz
            rw [if_neg hbc]
            exact hyz
        · rw [if_neg hab] at hxy
          have hab' : a < b := of_decide_eq_true hxy
          by_cases hbc : b = c
          · subst hbc
            rw [if_neg hab]
            exact hxy
          · rw [if_neg hbc] at hyz
            have hbc' : b < c := of_decide_eq_true hyz
            have hac' : a < c := lt_trans hab' hbc'
            rw [if_neg (ne_of_lt hac')]
            exact decide_eq_true hac'

theorem charsLt_total :
    ∀ (x y : List Char), x ≠ y → charsLt x y = true ∨ charsLt y x = true := by
  intro x
  induction x with
  | nil =>
    intro y hne
    cases y with
    | nil => exact absurd rfl hne
    | cons b bs => left; simp [charsLt]
  | cons a as ih =>
    intro y hne
    cases y with
    | nil => right; simp [charsLt]
    | cons b bs =>
      by_cases hab : a = b
      · subst hab
        have hne' : as ≠ bs := fun h => hne (by rw [h])
        rcases ih bs hne' with h | h
        · left; simp [charsLt, h]
        · right; simp [charsLt, h]
      · have hba : ¬ b = a := fun e => hab e.symm
        rcases lt_or_gt_of_ne hab with h | h
        · left; simp [charsLt, hab, h]
        · right; simp [charsLt, hba, h]

theorem toList_ne_of_ne {a b : String} (h : a ≠ b) : a.toList ≠ b.toList :=
  fun he => h (String.toList_inj.mp he)

theorem strLe_refl (a : String) : strLe a a = true := by
  simp [strLe]

theorem strLt_ne {a b : String} (h : strLt a b = true) : a ≠ b := by
  intro he
  subst he
  rw [strLt, charsLt_irrefl] at h
  exact absurd h (by simp)

theorem strLt_trans {a b c : String} (h1 : strLt a b = true)
    (h2 : strLt b c = true) : strLt a c = true :=
  charsLt_trans a.toList b.toList c.toList h1 h2

theorem strLt_total {a b : String} (h : a ≠ b) :
    strLt a b = true ∨ strLt b a = true :=
  charsLt_total a.toList b.toList (toList_ne_of_ne h)

theorem strLe_iff {a b : String} :
    strLe a b = true ↔ strLt a b = true ∨ a = b := by
  simp [strLe, Bool.or_eq_true, decide_eq_true_eq]

theorem strLe_trans {a b c : String} (h1 : strLe a b = true)
    (h2 : strLe b c = true) : strLe a c = true := by
  rcases strLe_iff.mp h1 with h1' | h1'
  · rcases strLe_iff.mp h2 with h2' | h2'
    · exact strLe_iff.mpr (Or.inl (strLt_trans h1' h2'))
    · subst h2'; exact strLe_iff.mpr (Or.inl h1')
  · subst h1'; exact h2

theorem strLe_total (a b : String) : strLe a b = true ∨ strLe b a = true := by
  by_cases h : a = b
  · subst h; exact Or.inl (strLe_refl a)
  · rcases strLt_total h with h' | h'
    · exact Or.inl (strLe_iff.mpr (Or.inl h'))
    · exact Or.inr (strLe_iff.mpr (Or.inl h'))

instance : IsTotal DirPair pairLeR where
  total x y := by
    unfold pairLeR pairLe
    by_cases h11 : x.1.1 = y.1.1
    · rw [if_pos h11, if_pos h11.symm]
      by_cases h12 : x.1.2 = y.1.2
      · rw [if_pos h12, if_pos h12.symm]
        exact strLe_total x.2 y.2
      · rw [if_neg h12, if_neg (fun e => h12 e.symm)]
        exact strLt_total h12
    · rw [if_neg h11, if_neg (fun e => h11 e.symm)]
      exact strLt_total h11

instance : IsTrans DirPair pairLeR where
  trans x y z := by
    unfold pairLeR pairLe
    intro hxy hyz
    by_cases e1 : x.1.1 = y.1.1
    · by_cases e2 : y.1.1 = z.1.1
      · have e3 : x.1.1 = z.1.1 := e1.trans e2
        rw [if_pos e1] at hxy
        rw [if_pos e2] at hyz
        rw [if_pos e3]
        by_cases f1 : x.1.2 = y.1.2
        · by_cases f2 : y.1.2 = z.1.2
          · have f3 : x.1.2 = z.1.2 := f1.trans f2
            rw [if_pos f1] at hxy
            rw [if_pos f2] at hyz
            rw [if_pos f3]
            exact strLe_trans hxy hyz
          · rw [if_pos f1] at hxy
            rw [if_neg f2] at hyz
            have f3 : x.1.2 ≠ z.1.2 := fun e => f2 (f1 ▸ e)
            rw [if_neg f3]
            rw [f1]
            exact hyz
        · by_cases f2 : y.1.2 = z.1.2
          · rw [if_neg f1] at hxy
            have f3 : x.1.2 ≠ z.1.2 := fun e => f1 (e.trans f2.symm)
            rw [if_neg f3]
            rw [← f2]
            exact hxy
          · rw [if_neg f1] at hxy
            rw [if_neg f2] at hyz
            have hlt : strLt x.1.2 z.1.2 = true := strLt_trans hxy hyz
            rw [if_neg (strLt_ne hlt)]
            exact hlt
      · have e3 : x.1.1 ≠ z.1.1 := fun e => e2 (e1 ▸ e)
        rw [if_neg e2] at hyz
        rw [if_neg e3, e1]
        exact hyz
    · by_cases e2 : y.1.1 = z.1.1
      · have e3 : x.1.1 ≠ z.1.1 := fun e => e1 (e.trans e2.symm)
        rw [if_neg e1] at hxy
        rw [if_neg e3, ← e2]
        exact hxy
      · rw [if_neg e1] at hxy
        rw [if_neg e2] at hyz
        have hlt : strLt x.1.1 z.1.1 = true := strLt_trans hxy hyz
        rw [if_neg (strLt_ne hlt)]
        exact hlt

/-! ### Invariant: every enumerated pair is `(os.path.split(path), path)` -/

theorem get_directory_files_go_fst_split
    (recur : String → Nat → Option (Except String (List DirPair)))
    (dirName : String) (exts : List String) (curDepth : Nat)
    (hrec : ∀ d cd l, recur d cd = some (.ok l) → ∀ p ∈ l, p.1 = pySplit p.2) :
    ∀ (entries : List DirEntry) (l : List DirPair),
      get_directory_files_go recur dirName exts curDepth entries = some (.ok l) →
      ∀ p ∈ l, p.1 = pySplit p.2 := by
  intro entries
  induction entries with
  | nil =>
    intro l h p hp
    simp only [get_directory_files_go, Option.some.injEq, Except.ok.injEq] at h
    rw [← h] at hp
    exact absurd hp (by simp)
  | cons e rest ih =>
    cases e with
    | file name =>
      intro l h p hp
      simp only [get_directory_files_go] at h
      cases hgo : get_directory_files_go recur dirName exts curDepth rest with
      | none => rw [hgo] at h; exact absurd h (by simp)
      | some r =>
        cases r with
        | error e => rw [hgo] at h; exact absurd h (by simp)
        | ok l' =>
          rw [hgo] at h
          simp only [Option.some.injEq, Except.ok.injEq] at h
          rw [← h] at hp
          by_cases hext : exts.contains (pySplitext name).2 = true
          · rw [if_pos hext] at hp
            rcases List.mem_cons.mp hp with hp1 | hp1
            · rw [hp1]
            · exact ih l' hgo p hp1
          · rw [if_neg hext] at hp
            exact ih l' hgo p hp
    | dir name =>
      intro l h p hp
      simp only [get_directory_files_go] at h
      cases hrc : recur (pyJoin dirName name) (curDepth + 1) with
      | none => rw [hrc] at h; exact absurd h (by simp)
      | some r =>
        cases r with
        | error e => rw [hrc] at h; exact absurd h (by simp)
        | ok sub =>
          rw [hrc] at h
          simp only [] at h
          cases hgo : get_directory_files_go recur dirName exts curDepth rest with
          | none => rw [hgo] at h; exact absurd h (by simp)
          | some r2 =>
            cases r2 with
            | error e => rw [hgo] at h; exact absurd h (by simp)
            | ok l' =>
              rw [hgo] at h
              simp only [Option.some.injEq, Except.ok.injEq] at h
              rw [← h] at hp
              rcases List.mem_append.mp hp with hp1 | hp1
              · exact hrec _ _ _ hrc p hp1
              · exact ih l' hgo p hp1

theorem get_directory_files_helper_fst_split (env : Env) (exts : List String)
    (maxDepth : Nat) :
    ∀ (fuel : Nat) (dirName : String) (curDepth : Nat) (l : List DirPair),
      get_directory_files_helper env exts maxDepth fuel dirName curDepth
        = some (.ok l) → ∀ p ∈ l, p.1 = pySplit p.2 := by
  intro fuel
  induction fuel with
  | zero =>
    intro d cd l h
    exact absurd h (by simp [get_directory_files_helper])
  | succ f ih =>
    intro d cd l h
    simp only [get_directory_files_helper] at h
    by_cases hstop : 0 < maxDepth ∧ maxDepth ≤ cd
    · rw [if_pos hstop] at h
      simp only [Option.some.injEq, Except.ok.injEq] at h
      intro p hp
      rw [← h] at hp
      exact absurd hp (by simp)
    · rw [if_neg hstop] at h
      cases hscan : env.scan d with
      | error e => rw [hscan] at h; exact absurd h (by simp)
      | ok entries =>
        rw [hscan] at h
        simp only [] at h
        exact get_directory_files_go_fst_split _ d exts cd
          (fun d' cd' l' h' => ih d' cd' l' h') entries l h

/-! ### Characterization of the URL pattern -/

theorem is_url_aux_iff :
    ∀ (cs : List Char) (seen : Bool),
      is_url_aux cs seen = true ↔
        ∃ s t : List Char, cs = s ++ ':' :: t ∧ s.all isLowerAZ = true ∧
          (s ≠ [] ∨ seen = true) := by
  intro cs
  induction cs with
  | nil =>
    intro seen
    constructor
    · intro h; exact absurd h (by simp [is_url_aux])
    · rintro ⟨s, t, h, -, -⟩
      cases s <;> simp at h
  | cons c rest ih =>
    intro seen
    by_cases hc : isLowerAZ c = true
    · rw [show is_url_aux (c :: rest) seen = is_url_aux rest true from by
        simp [is_url_aux, hc]]
      rw [ih true]
      constructor
      · rintro ⟨s, t, heq, hall, -⟩
        refine ⟨c :: s, t, by rw [heq]; rfl, ?_, by simp⟩
        rw [List.all_cons, Bool.and_eq_true]
        exact ⟨hc, hall⟩
      · rintro ⟨s, t, heq, hall, hne⟩
        cases s with
        | nil =>
          injection heq with h1 h2
          rw [h1] at hc
          exact absurd hc (by decide)
        | cons a s' =>
          injection heq with h1 h2
          rw [List.all_cons, Bool.and_eq_true] at hall
          exact ⟨s', t, h2, hall.2, Or.inr rfl⟩
    · rw [show is_url_aux (c :: rest) seen = ((c == ':') && seen) from by
        simp [is_url_aux, hc]]
      constructor
      · intro h
        rw [Bool.and_eq_true] at h
        have hceq : c = ':' := by simpa using h.1
        exact ⟨[], rest, by rw [hceq]; rfl, by simp, Or.inr h.2⟩
      · rintro ⟨s, t, heq, hall, hne⟩
        cases s with
        | nil =>
          injection heq with h1 h2
          rcases hne with hbad | hseen
          · exact absurd rfl hbad
          · rw [h1, hseen]
            simp
        | cons a s' =>
          injection heq with h1 h2
          rw [List.all_cons, Bool.and_eq_true] at hall
          rw [h1] at hc
          exact absurd hall.1 hc

theorem is_url_iff (p : String) :
    is_url p = true ↔
      ∃ s t : String, p = s ++ ":" ++ t ∧ s ≠ "" ∧ s.toList.all isLowerAZ = true := by
  unfold is_url
  rw [is_url_aux_iff p.toList false]
  constructor
  · rintro ⟨s, t, heq, hall, hne⟩
    rcases hne with hs | hfalse
    · refine ⟨⟨s⟩, ⟨t⟩, ?_, ?_, hall⟩
      · apply String.toList_inj.mp
        rw [heq]
        simp [String.toList, String.data_append]
      · intro h
        exact hs (congrArg String.data h)
    · exact absurd hfalse (by simp)
  · rintro ⟨S, T, heq, hne, hall⟩
    refine ⟨S.toList, T.toList, ?_, hall, Or.inl ?_⟩
    · rw [heq]
      simp [String.toList, String.data_append]
    · intro h
      apply hne
      apply String.toList_inj.mp
      rw [h]
      rfl

/-! ### Claim theorems -/

/-- C1 counterexample: the claim says the `var` value field is substituted
before assignment.  On the concrete run
`[var a=x, var b={{a}}, message {{b}}]` the table ends with `b ↦ "{{a}}"`
(the raw value) and the run prints `{{a}}`, although substituting the value
field would store and print `"x" ≠ "{{a}}"`. -/
theorem C1_var_value_not_substituted :
    process_config_items demoEnv 1
        [.var "a" "x", .var "b" "\x7b\x7ba\x7d\x7d", .message "\x7b\x7bb\x7d\x7d"] [] "."
        = .ok ["\x7b\x7ba\x7d\x7d"] [("a", "x"), ("b", "\x7b\x7ba\x7d\x7d")]
      ∧ replace_variables "\x7b\x7ba\x7d\x7d" [("a", "x")] = "x"
      ∧ ("\x7b\x7ba\x7d\x7d" : String) ≠ "x" :=
  ⟨by decide, by decide, by decide⟩

/-- C1 (amended): when a `var` item is processed, the raw `value` is assigned
into the shared variable table under the raw `name` — no substitution is
applied to either field — and the item yields no fragment. -/
theorem C1_var_assigns_raw_value (env : Env) (fuel : Nat) (n v : String)
    (vars : Vars) (root : String) :
    process_config_items env (fuel + 1) [.var n v] vars root
      = .ok [] (varsSet vars n v) :=
  process_config_items_var env fuel n v vars root

/-- C2: when resolution raises (any fetch, enumeration or nested-validation
error, for any item kind), the driver writes exactly one `Error: <message>`
line to stderr and exits with status 2; on success it exits 0 with empty
stderr; and an item that raises absorbs the whole rest of the item list —
no fragment of any later item is produced — uniformly for every item kind. -/
theorem C2_fail_fast :
    (∀ env fuel items frags msg,
        process_config_items env fuel items [] "." = .fail frags msg →
        main_run env fuel items
          = some (print_frags frags, "Error: " ++ msg ++ "\n", 2))
    ∧ (∀ env fuel items frags vs,
        process_config_items env fuel items [] "." = .ok frags vs →
        main_run env fuel items = some (print_frags frags, "", 0))
    ∧ (∀ recur env dirFuel item rest vars root fs msg,
        process_item recur env dirFuel item vars root = .fail fs msg →
        process_items_go recur env dirFuel (item :: rest) vars root
          = .fail fs msg) := by
  refine ⟨?_, ?_, ?_⟩
  · intro env fuel items frags msg h
    simp [main_run, h]
  · intro env fuel items frags vs h
    simp [main_run, h]
  · intro recur env dirFuel item rest vars root fs msg h
    rw [process_items_go_cons, h]
    rfl

theorem C2_fail_fast_witness :
    main_run demoEnv 2 [.message "A", .file "zz"]
      = some (print_frags ["A"], "Error: " ++ "nope" ++ "\n", 2) :=
  C2_fail_fast.1 demoEnv 2 [.message "A", .file "zz"] ["A"] "nope" (by decide)

/-- C3: resolution is one depth-first left-to-right traversal over a single
mutable table: a group of items is processed with the incoming table and the
rest continues from the table it leaves (so a `var` anywhere affects every
later item and never an earlier one); a `var` item updates the table in
place; and a nested `config` recurses with the very same table. -/
theorem C3_single_shared_table :
    (∀ recur env dirFuel xs ys vars root,
        process_items_go recur env dirFuel (xs ++ ys) vars root
          = presult_seq (process_items_go recur env dirFuel xs vars root)
              (fun vs => process_items_go recur env dirFuel ys vs root))
    ∧ (∀ env fuel n v vars root,
        process_config_items env (fuel + 1) [.var n v] vars root
          = .ok [] (varsSet vars n v))
    ∧ (∀ vars n v m,
        varsGet (varsSet vars n v) m = if m = n then some v else varsGet vars m)
    ∧ (∀ env fuel raw vars root t sub,
        fetch_text env (resolve_item_path raw vars root) = .ok t →
        env.parse t = .ok sub →
        process_config_items env (fuel + 1) [.config raw] vars root
          = process_config_items env fuel sub vars
              (pyDirname (resolve_item_path raw vars root))) := by
  refine ⟨process_items_go_append, process_config_items_var, varsGet_varsSet, ?_⟩
  intro env fuel raw vars root t sub h1 h2
  rw [process_config_items_one,
    process_item_config_eq _ env fuel raw vars root t sub h1 h2]

theorem C3_single_shared_table_witness :
    process_config_items demoEnv 2 [.config "sub/cfg.json"] [] "."
      = process_config_items demoEnv 1 [.message "B"] [] "sub" :=
  C3_single_shared_table.2.2.2 demoEnv 1 "sub/cfg.json" [] "." "CFG"
    [.message "B"] (by decide) (by decide)

/-- C4: the enumerated file list of a `dir` item is a permutation of the
helper's scan-order enumeration, ordered by the Python tuple comparison on
the `(os.path.split(path), path)` keys — grouped by containing directory,
then filename; and on a concrete tree (`d/a-b/f.txt`, `d/a/g.txt`) this
order differs from a plain lexicographic sort of the whole path strings
(`-` sorts before `/`). -/
theorem C4_dir_sort_by_split_pair :
    (∀ env fuel d exts md files,
        get_directory_files env fuel d exts md = some (.ok files) →
        files.Pairwise (fun a b => pairLe (pySplit a, a) (pySplit b, b) = true)
        ∧ ∃ prs, get_directory_files_helper env exts md fuel d 0 = some (.ok prs)
            ∧ files.Perm (prs.map (·.2)))
    ∧ (get_directory_files demoEnv 3 "d" [".txt"] 0
          = some (.ok ["d/a/g.txt", "d/a-b/f.txt"])
        ∧ List.insertionSort (fun a b : String => strLe a b = true)
            ["d/a-b/f.txt", "d/a/g.txt"] = ["d/a-b/f.txt", "d/a/g.txt"]
        ∧ (["d/a/g.txt", "d/a-b/f.txt"] : List String)
            ≠ ["d/a-b/f.txt", "d/a/g.txt"]) := by
  constructor
  · intro env fuel d exts md files h
    unfold get_directory_files at h
    cases hh : get_directory_files_helper env exts md fuel d 0 with
    | none => rw [hh] at h; exact absurd h (by simp)
    | some r =>
      cases r with
      | error e => rw [hh] at h; exact absurd h (by simp [Except.map])
      | ok prs =>
        rw [hh] at h
        simp only [Option.map, Except.map, Option.some.injEq,
          Except.ok.injEq] at h
        constructor
        · have hsorted : (List.insertionSort pairLeR prs).Pairwise pairLeR :=
            List.sorted_insertionSort pairLeR prs
          have hinv : ∀ p ∈ List.insertionSort pairLeR prs,
              p.1 = pySplit p.2 := by
            intro p hp
            exact get_directory_files_helper_fst_split env exts md fuel d 0 prs
              hh p ((List.perm_insertionSort pairLeR prs).mem_iff.mp hp)
          rw [← h, List.pairwise_map]
          apply hsorted.imp_of_mem
          intro a b ha hb hab
          have h1 : a.1 = pySplit a.2 := hinv a ha
          have h2 : b.1 = pySplit b.2 := hinv b hb
          rw [← h1, ← h2]
          exact hab
        · exact ⟨prs, rfl, by
            rw [← h]
            exact (List.perm_insertionSort pairLeR prs).map (·.2)⟩
  · exact ⟨by decide, by decide, by decide⟩

theorem C4_dir_sort_by_split_pair_witness :
    List.Pairwise
        (fun a b => pairLe (pySplit a, a) (pySplit b, b) = true)
        ["d/a/g.txt", "d/a-b/f.txt"]
      ∧ ∃ prs, get_directory_files_helper demoEnv [".txt"] 0 3 "d" 0
          = some (.ok prs)
        ∧ (["d/a/g.txt", "d/a-b/f.txt"] : List String).Perm (prs.map (·.2)) :=
  C4_dir_sort_by_split_pair.1 demoEnv 3 "d" [".txt"] 0
    ["d/a/g.txt", "d/a-b/f.txt"] (by decide)

/-- C5: item paths are substituted first; the substituted path is returned
unchanged when it matches `^[a-z]+:` (characterized exactly: a non-empty
lowercase prefix followed by a colon) or is absolute, and is otherwise
joined with the current base directory and normalized; and a `config` item
recurses with the same variable table and base directory equal to the
directory of the resolved config path. -/
theorem C5_path_resolution :
    (∀ raw vars root,
        (is_url (replace_variables raw vars) = true →
          resolve_item_path raw vars root = replace_variables raw vars)
        ∧ (isAbs (replace_variables raw vars) = true →
          resolve_item_path raw vars root = replace_variables raw vars)
        ∧ (is_url (replace_variables raw vars) = false →
          isAbs (replace_variables raw vars) = false →
          resolve_item_path raw vars root
            = pyNormpath (pyJoin root (replace_variables raw vars))))
    ∧ (∀ p, is_url p = true ↔ ∃ s t : String,
        p = s ++ ":" ++ t ∧ s ≠ "" ∧ s.toList.all isLowerAZ = true)
    ∧ (∀ env fuel raw vars root t sub,
        fetch_text env (resolve_item_path raw vars root) = .ok t →
        env.parse t = .ok sub →
        process_config_items env (fuel + 1) [.config raw] vars root
          = process_config_items env fuel sub vars
              (pyDirname (resolve_item_path raw vars root))) := by
  refine ⟨?_, is_url_iff, ?_⟩
  · intro raw vars root
    refine ⟨fun h => ?_, fun h => ?_, fun h1 h2 => ?_⟩
    · simp [resolve_item_path, h]
    · simp [resolve_item_path, h]
    · simp [resolve_item_path, h1, h2]
  · intro env fuel raw vars root t sub h1 h2
    rw [process_config_items_one,
      process_item_config_eq _ env fuel raw vars root t sub h1 h2]

theorem C5_path_resolution_witness :
    resolve_item_path "https://e.com/x" [] "sub"
        = replace_variables "https://e.com/x" []
      ∧ (is_url "https:" = true ↔ ∃ s t : String,
          ("https:" : String) = s ++ ":" ++ t ∧ s ≠ ""
            ∧ s.toList.all isLowerAZ = true)
      ∧ process_config_items demoEnv 2 [.config "./sub/cfg.json"] [] "."
          = process_config_items demoEnv 1 [.message "B"] []
              (pyDirname (resolve_item_path "./sub/cfg.json" [] ".")) :=
  ⟨(C5_path_resolution.1 "https://e.com/x" [] "sub").1 (by decide),
   C5_path_resolution.2.1 "https:",
   C5_path_resolution.2.2 demoEnv 1 "./sub/cfg.json" [] "." "CFG" [.message "B"]
     (by decide) (by decide)⟩

/-- C6: a `dir` item whose (successful) enumeration yields zero files raises
the fatal error `No files found, "<resolved path>"`; and an empty extension
set matches nothing, so a `dir` item with empty `exts` always takes that
error path when its enumeration succeeds. -/
theorem C6_empty_enumeration_fatal :
    (∀ env fuel d md files,
        get_directory_files env fuel d ([] : List String) md = some (.ok files) →
        files = [])
    ∧ (∀ recur env dirFuel raw exts depth vars root,
        get_directory_files env dirFuel (resolve_item_path raw vars root)
            (exts.map (fun e => "." ++ lstripDots e)) depth = some (.ok []) →
        process_item recur env dirFuel (.dir raw exts depth) vars root
          = .fail [] ("No files found, \"" ++ resolve_item_path raw vars root ++ "\""))
    ∧ (∀ recur env dirFuel raw depth vars root files,
        get_directory_files env dirFuel (resolve_item_path raw vars root)
            ([] : List String) depth = some (.ok files) →
        process_item recur env dirFuel (.dir raw ([] : List String) depth) vars root
          = .fail [] ("No files found, \"" ++ resolve_item_path raw vars root ++ "\"")) := by
  refine ⟨get_directory_files_empty_exts, process_item_dir_empty, ?_⟩
  intro recur env dirFuel raw depth vars root files h
  have hfiles : files = [] :=
    get_directory_files_empty_exts env dirFuel (resolve_item_path raw vars root)
      depth files h
  subst hfiles
  exact process_item_dir_empty recur env dirFuel raw [] depth vars root h

theorem C6_empty_enumeration_fatal_witness :
    process_item (fun _ v _ => PResult.ok [] v) demoEnv 3
        (.dir "d" ([] : List String) 0) [] "."
      = .fail [] ("No files found, \"" ++ resolve_item_path "d" [] "." ++ "\"") :=
  C6_empty_enumeration_fatal.2.2 (fun _ v _ => PResult.ok [] v) demoEnv 3 "d" 0
    [] "." [] (by decide)

/-- C7: a `file` item yields exactly the resolved path in open/close angle
tags around the fetched (stripped) content, with a newline after the opening
tag always and a newline before the closing tag iff the stripped content is
non-empty; an empty file still yields both tags. -/
theorem C7_file_fragment_shape
    (recur : List Item → Vars → String → PResult) (env : Env) (dirFuel : Nat)
    (raw : String) (vars : Vars) (root : String) (c : String)
    (h : env.read (resolve_item_path raw vars root) = .ok c) :
    process_item recur env dirFuel (.file raw) vars root
      = .ok ["<" ++ resolve_item_path raw vars root ++ ">\n" ++ pyStrip c
              ++ (if pyStrip c = "" then "" else "\n")
              ++ "</" ++ resolve_item_path raw vars root ++ ">"] vars := by
  rw [process_item_file_eq recur env dirFuel raw vars root c h]
  rfl

theorem C7_file_fragment_shape_witness :
    process_item (fun _ v _ => PResult.ok [] v) demoEnv 0 (.file "f1") [] "."
      = .ok ["<" ++ resolve_item_path "f1" [] "." ++ ">\n" ++ pyStrip " hello "
              ++ (if pyStrip " hello " = "" then "" else "\n")
              ++ "</" ++ resolve_item_path "f1" [] "." ++ ">"] [] :=
  C7_file_fragment_shape (fun _ v _ => PResult.ok [] v) demoEnv 0 "f1" [] "."
    " hello " (by decide)

/-- C8: on success the printed output is the fragment sequence joined with
one blank line at every fragment boundary (`process_config` is exactly the
`"\n\n"` join; the driver additionally terminates the last `print` with a
newline); the fragment sequence follows item order, with each item's
fragments spliced in place and a `dir` expansion contributing one fragment
per enumerated file in enumerator order. -/
theorem C8_blank_line_join_and_order :
    (∀ env fuel items vars root frags vs,
        process_config_items env fuel items vars root = .ok frags vs →
        process_config env fuel items vars root
          = some (.ok (String.intercalate "\n\n" frags)))
    ∧ (∀ env fuel items frags vs,
        process_config_items env fuel items [] "." = .ok frags vs → frags ≠ [] →
        main_run env fuel items
          = some (String.intercalate "\n\n" frags ++ "\n", "", 0))
    ∧ (∀ recur env dirFuel item rest vars root,
        process_items_go recur env dirFuel (item :: rest) vars root
          = presult_seq (process_item recur env dirFuel item vars root)
              (fun vs => process_items_go recur env dirFuel rest vs root))
    ∧ (∀ recur env dirFuel raw exts depth vars root files (g : String → String),
        get_directory_files env dirFuel (resolve_item_path raw vars root)
            (exts.map (fun e => "." ++ lstripDots e)) depth = some (.ok files) →
        files ≠ [] →
        (∀ f ∈ files, env.read f = .ok (g f)) →
        process_item recur env dirFuel (.dir raw exts depth) vars root
          = .ok (files.map (fun f => file_fragment f (pyStrip (g f)))) vars) :=
  ⟨process_config_ok, main_run_ok, process_items_go_cons, process_item_dir_ok⟩

theorem C8_blank_line_join_and_order_witness :
    main_run demoEnv 3 [.message "A", .config "sub/cfg.json", .message "C"]
      = some (String.intercalate "\n\n" ["A", "B", "C"] ++ "\n", "", 0) :=
  C8_blank_line_join_and_order.2.1 demoEnv 3
    [.message "A", .config "sub/cfg.json", .message "C"] ["A", "B", "C"] []
    (by decide) (by decide)

/-- C9: a variable token `{{name}}` is replaced by the table value when
present and by the empty string when the name is absent; substitution is a
total function and never fails. -/
theorem C9_unknown_variable_empty (vars : Vars) (name rest : String)
    (hid : isIdentString name = true) :
    replace_variables ("\x7b\x7b" ++ name ++ "\x7d\x7d" ++ rest) vars
        = ((varsGet vars name).getD "") ++ replace_variables rest vars
      ∧ (varsGet vars name = none →
        replace_variables ("\x7b\x7b" ++ name ++ "\x7d\x7d" ++ rest) vars
          = replace_variables rest vars) := by
  refine ⟨replace_variables_token_step vars name rest hid, ?_⟩
  intro hnone
  rw [replace_variables_token_step vars name rest hid, hnone]
  rfl

theorem C9_unknown_variable_empty_witness :
    replace_variables ("\x7b\x7b" ++ "zzz" ++ "\x7d\x7d" ++ "!") [("a", "x")]
      = replace_variables "!" [("a", "x")] :=
  (C9_unknown_variable_empty [("a", "x")] "zzz" "!" (by decide)).2 (by decide)

/-- C10 counterexample: the claim says any `\x7b\x7b` sequence whose
identifier does not match the ASCII class `[A-Za-z_][A-Za-z0-9_]*` is
emitted verbatim.  But Python's `\\w` on `str` is Unicode-aware: the program
substitutes `\x7b\x7baé\x7d\x7d` (é = U+00E9 is a word character outside that ASCII
class) to the empty string, and likewise `\x7b\x7ba\u00a0\x7d\x7d` (no-break space
matches `\\s*` before `\x7d\x7d`), so neither is emitted verbatim. -/
theorem C10_ascii_class_refuted :
    replace_variables "\x7b\x7ba\u00e9\x7d\x7d" [] = ""
      ∧ ("\x7b\x7ba\u00e9\x7d\x7d" : String) ≠ ""
      ∧ ¬ ((48 ≤ ('\u00e9' : Char).toNat ∧ ('\u00e9' : Char).toNat ≤ 57)
          ∨ (65 ≤ ('\u00e9' : Char).toNat ∧ ('\u00e9' : Char).toNat ≤ 90)
          ∨ (97 ≤ ('\u00e9' : Char).toNat ∧ ('\u00e9' : Char).toNat ≤ 122)
          ∨ ('\u00e9' : Char).toNat = 95)
      ∧ replace_variables "\x7b\x7ba\u00a0\x7d\x7d" [] = ""
      ∧ ("\x7b\x7ba\u00a0\x7d\x7d" : String) ≠ "" := by
  exact ⟨by decide, by decide, by decide, by decide, by decide⟩

/-- C10 (amended): substitution is total and leaves non-token text unchanged
under the token classes the program actually uses — `\x7b\x7b`, optional Unicode
whitespace, `[_a-zA-Z]` then Unicode word characters, optional whitespace,
`\x7d\x7d`: a text none of whose positions starts such a token match (e.g. with
`\x7b\x7b1x\x7d\x7d`, `\x7b\x7b\x7d\x7d`, or an unterminated `\x7b\x7b`) is returned verbatim, and at a
non-matching position the character is copied exactly and scanning continues
one position later. -/
theorem C10_non_token_text_verbatim :
    (∀ (text : String) (vars : Vars),
        text.toList.tails.all (fun s => (matchToken s).isNone) = true →
        replace_variables text vars = text)
    ∧ (∀ (c : Char) (cs : List Char) (vars : Vars),
        matchToken (c :: cs) = none →
        replace_variables ⟨c :: cs⟩ vars = ⟨[c]⟩ ++ replace_variables ⟨cs⟩ vars) := by
  constructor
  · intro text vars hall
    unfold replace_variables
    rw [replace_variables_aux_id vars text.toList text.toList.length hall]
    rfl
  · intro c cs vars hm
    unfold replace_variables
    simp only [String.toList, List.length_cons, replace_variables_aux, hm]
    rfl

theorem C10_non_token_text_verbatim_witness :
    replace_variables "\x7b\x7b1x\x7d\x7d" [("x", "v"), ("1x", "v")] = "\x7b\x7b1x\x7d\x7d"
      ∧ replace_variables "\x7b\x7b\x7d\x7d" [] = "\x7b\x7b\x7d\x7d"
      ∧ replace_variables "a\x7b\x7bx" [("x", "v")] = "a\x7b\x7bx" :=
  ⟨C10_non_token_text_verbatim.1 "\x7b\x7b1x\x7d\x7d" [("x", "v"), ("1x", "v")] (by decide),
   C10_non_token_text_verbatim.1 "\x7b\x7b\x7d\x7d" [] (by decide),
   C10_non_token_text_verbatim.1 "a\x7b\x7bx" [("x", "v")] (by decide)⟩

end CtxKit

section Sanity
open CtxKit
example : pyNormpath "a/./b/../c" = "a/c" := by decide
example : pyNormpath "../x" = "../x" := by decide
example : pyNormpath "/../x" = "/x" := by decide
example : pyNormpath "//x" = "//x" := by decide
example : pyNormpath "" = "." := by decide
example : pyJoin "sub" "a.txt" = "sub/a.txt" := by decide
example : pyJoin "" "a.txt" = "a.txt" := by decide
example : pyJoin "d/" "a" = "d/a" := by decide
example : pySplit "d/a/g.txt" = ("d/a", "g.txt") := by decide
example : pySplit "b" = ("", "b") := by decide
example : pySplit "/b" = ("/", "b") := by decide
example : pySplit "a//b" = ("a", "b") := by decide
example : pySplitext "a.txt" = ("a", ".txt") := by decide
example : pySplitext ".gitignore" = (".gitignore", "") := by decide
example : pySplitext "a.b.c" = ("a.b", ".c") := by decide
example : pySplitext "d/.x" = ("d/.x", "") := by decide
example : pySplitext "..a.txt" = ("..a", ".txt") := by decide
example : is_url "https:" = true := by decide
example : is_url "x" = false := by decide
example : is_url ":x" = false := by decide
example : is_url "Https:" = false := by decide
example : pyStrip "  hi \n" = "hi" := by decide
example : pyDirname "sub/cfg.json" = "sub" := by decide
example : pyDirname "cfg.json" = "" := by decide
example : lstripDots "..py" = "py" := by decide
example : replace_variables "Hello, \x7b\x7bfirst\x7d\x7d \x7b\x7b Last \x7d\x7d!" [("first", "Foo"), ("Last", "Bar")]
    = "Hello, Foo Bar!" := by decide
example : replace_variables "Hello, \x7b\x7bfirst\x7d\x7d \x7b\x7b Last \x7d\x7d!" [("Last", "Bar")]
    = "Hello,  Bar!" := by decide
example : replace_variables "\x7b\x7b1x\x7d\x7d" [("x", "v")] = "\x7b\x7b1x\x7d\x7d" := by decide
example : replace_variables "\x7b\x7b\x7d\x7d" [] = "\x7b\x7b\x7d\x7d" := by decide
example : replace_variables "\x7b\x7b\x7bx\x7d\x7d\x7d" [("x", "v")] = "\x7bv\x7d" := by decide
example : replace_variables "\x7b\x7bx" [("x", "v")] = "\x7b\x7bx" := by decide
example : replace_variables "a\x7b\x7b x \x7d\x7db" [("x", "v")] = "avb" := by decide
example : varsSet [("a", "1")] "a" "2" = [("a", "2")] := by decide
example : varsSet [("a", "1")] "b" "2" = [("a", "1"), ("b", "2")] := by decide

example : get_directory_files demoEnv 3 "d" [".txt"] 0
    = some (.ok ["d/a/g.txt", "d/a-b/f.txt"]) := by decide
example : process_config_items demoEnv 3 [.message "A", .config "sub/cfg.json", .message "C"] [] "."
    = .ok ["A", "B", "C"] [] := by decide
example : main_run demoEnv 3 [.message "A", .config "sub/cfg.json", .message "C"]
    = some ("A\n\nB\n\nC\n", "", 0) := by decide
example : process_config_items demoEnv 2 [.var "x" "hi", .message "\x7b\x7bx\x7d\x7d there"] [] "."
    = .ok ["hi there"] [("x", "hi")] := by decide
example : process_config_items demoEnv 4 [.dir "d" ["txt"] 0] [] "."
    = .ok ["<d/a/g.txt>\nG\n</d/a/g.txt>", "<d/a-b/f.txt>\nF\n</d/a-b/f.txt>"] [] := by decide
example : main_run demoEnv 2 [.message "A", .file "zz"]
    = some ("A\n", "Error: nope\n", 2) := by decide
example : process_config_items demoEnv 2 [.file "f1"] [] "."
    = .ok ["<f1>\nhello\n</f1>"] [] := by decide
end Sanity
